import Mathlib

/-!
Shallow embedding of the pyschlage client library (a typed Python client for
Schlage WiFi/BLE smart locks) and proofs about its mutable-state
synchronization model.

Python-to-Lean conventions used throughout:
* machine strings are `String`, manipulated through their `.data` code-point
  lists (Python strings are sequences of code points, so lengths and slices
  agree);
* `None`-able values are `Option`; Python truthiness of strings and optionals
  is modelled explicitly where the source relies on it;
* raised exceptions become `Except Error`;
* network I/O is modelled by returning the `Request` values a method issues and
  by passing server response payloads in as explicit arguments;
* JSON payloads consumed by decoders are structured records mirroring the keys
  the source reads; JSON payloads produced by encoders are a small `Json` AST;
* timestamps (`datetime` values) are epoch numbers (`Nat`).
-/

namespace Pyschlage

/-- Error taxonomy of `exceptions.py`, plus Python built-ins (`ValueError`,
`AssertionError`) and the untranslated transport exception
`requests.exceptions.MissingSchema` (raised by `requests.request` on a URL
without an `http(s)://` scheme; neither `_translate_auth_errors`, which
catches only Cognito `ClientError`s, nor `_translate_http_errors`, whose
`try` block begins after the wrapped call has returned, converts it). -/
inductive Error where
  | notAuthenticatedError
  | notAuthorizedError (message : String)
  | unknownError (message : String)
  | valueError
  | assertionError
  | missingSchema
  deriving DecidableEq

/-- The slice of `auth.Auth` the entity layer reads: the memoized
authenticated-user id. -/
structure Auth where
  user_id : String
  deriving DecidableEq

/-- An HTTP response as seen by `_translate_http_errors`: status code, reason
phrase, and the JSON body. `body = none` models a body that fails JSON
decoding; a decoded body is a string-valued object, enough to model
`resp.json().get("message", ...)`. -/
structure HttpResponse where
  status_code : Nat
  reason : String
  body : Option (List (String × String))
  deriving DecidableEq

/-- Embeds `auth._translate_http_errors` from `auth.py` acting on the response
of the wrapped call. `requests.Response.raise_for_status` raises `HTTPError`
exactly for 4xx and 5xx status codes; the handler then extracts
`resp.json().get("message", resp.reason)` (falling back to `resp.reason` on a
JSON decode error) and raises `UnknownError` with that message. -/
def translate_http_errors (resp : HttpResponse) : Except Error HttpResponse :=
  if 400 ≤ resp.status_code ∧ resp.status_code < 600 then
    let message :=
      match resp.body with
      | some obj => (obj.lookup "message").getD resp.reason
      | none => resp.reason
    .error (.unknownError message)
  else
    .ok resp

/-- A 401 Unauthorized response whose JSON body carries a message, as in
`tests/test_auth.py::test_request_not_authorized`. -/
def response401 : HttpResponse :=
  { status_code := 401, reason := "Unauthorized",
    body := some [("message", "Unauthorized")] }

/-- Value of one hex digit, or `none` for a non-hex character. -/
def pyHexDigit? (c : Char) : Option Nat :=
  if '0' ≤ c ∧ c ≤ '9' then some (c.toNat - '0'.toNat)
  else if 'a' ≤ c ∧ c ≤ 'f' then some (c.toNat - 'a'.toNat + 10)
  else if 'A' ≤ c ∧ c ≤ 'F' then some (c.toNat - 'A'.toNat + 10)
  else none

/-- Embeds Python's `int(s, 16)` on the plain-hex-digit fragment: a nonempty
string of hex digits parses to its value, anything else fails (`ValueError`).
The source only ever feeds this canonical digit strings, so the extra leniency
of `int` (signs, whitespace, underscores, an optional `0x` prefix) is not
modelled. -/
def pyIntHex? (s : String) : Option Nat :=
  match s.data with
  | [] => none
  | ds => ds.foldl (fun acc c => acc.bind fun n => (pyHexDigit? c).map fun d => 16 * n + d)
      (some 0)

/-- Embeds Python's `hex(n)`: the string `"0x"` followed by the minimal
lowercase hexadecimal digits of `n`. -/
def pyHex (n : Nat) : String :=
  ⟨'0' :: 'x' :: Nat.toDigits 16 n⟩

/-- Embeds `str.lstrip("0x")`: removes LEADING CHARACTERS drawn from the SET
of characters of the argument, i.e. drops leading `'0'`s and `'x'`s — not just
the `"0x"` prefix. -/
def pyLstrip0x (s : String) : String :=
  ⟨s.data.dropWhile (fun c => c == '0' || c == 'x')⟩

/-- Embeds `str.upper()` for ASCII strings. -/
def pyUpper (s : String) : String :=
  ⟨s.data.map Char.toUpper⟩

/-- The canonical (minimal, uppercase, unprefixed) hexadecimal representation
of `n` — the "valid 7-bit hex string" format `"0" .. "7F"` that the day-of-week
round-trip property quantifies over. -/
def canonHex (n : Nat) : String :=
  ⟨(Nat.toDigits 16 n).map Char.toUpper⟩

/-- Embeds the `DaysOfWeek` dataclass of `code.py`: enabled status for each
day of the week, all days enabled by default. -/
structure DaysOfWeek where
  sun : Bool := true
  mon : Bool := true
  tue : Bool := true
  wed : Bool := true
  thu : Bool := true
  fri : Bool := true
  sat : Bool := true
  deriving DecidableEq

/-- Embeds `DaysOfWeek.from_str`: parse the hex string, then assign
`(n & (1 << i)) != 0` for `i` in `reversed(range(7))` positionally, so `sun`
is bit 6 down to `sat` at bit 0. Parsing failure (`ValueError` in Python) is
`none`. -/
def DaysOfWeek.from_str (s : String) : Option DaysOfWeek :=
  (pyIntHex? s).map fun n =>
    { sun := n.testBit 6, mon := n.testBit 5, tue := n.testBit 4, wed := n.testBit 3,
      thu := n.testBit 2, fri := n.testBit 1, sat := n.testBit 0 }

/-- The accumulated `n` of `DaysOfWeek.to_str`: `n = (n << 1) | d` folded over
`astuple(self)` in field order. -/
def DaysOfWeek.mask (d : DaysOfWeek) : Nat :=
  (((((d.sun.toNat * 2 + d.mon.toNat) * 2 + d.tue.toNat) * 2 + d.wed.toNat) * 2
      + d.thu.toNat) * 2 + d.fri.toNat) * 2 + d.sat.toNat

/-- Embeds `DaysOfWeek.to_str`: `hex(n).lstrip("0x").upper()`. -/
def DaysOfWeek.to_str (d : DaysOfWeek) : String :=
  pyUpper (pyLstrip0x (pyHex d.mask))

/-- The all-days-disabled mask (the decode of `"0"`). -/
def DaysOfWeek.noDays : DaysOfWeek :=
  ⟨false, false, false, false, false, false, false⟩

/-- The all-days-enabled mask — the dataclass default, whose `to_str` is
`_ALL_DAYS = "7F"`. -/
def DaysOfWeek.allDays : DaysOfWeek := {}

/-- The JSON object shape read and written by `RecurringSchedule`: the value
of the `"schedule1"` key of an access-code payload. -/
structure SchedJson where
  daysOfWeek : String
  startHour : Int
  startMinute : Int
  endHour : Int
  endMinute : Int
  deriving DecidableEq

/-- Embeds the `RecurringSchedule` dataclass of `code.py` with its field
defaults (`_MIN_HOUR`, `_MIN_MINUTE`, `_MAX_HOUR`, `_MAX_MINUTE`). -/
structure RecurringSchedule where
  days_of_week : DaysOfWeek := {}
  start_hour : Int := 0
  start_minute : Int := 0
  end_hour : Int := 23
  end_minute : Int := 59
  deriving DecidableEq

/-- Embeds `RecurringSchedule.from_json`. A falsy payload (`None`, modelled by
`none`) gives no schedule; the all-days full-day-window payload is normalized
to no schedule; otherwise the days mask is parsed with `DaysOfWeek.from_str`,
whose `ValueError` on an unparseable mask propagates. -/
def RecurringSchedule.from_json : Option SchedJson → Except Error (Option RecurringSchedule)
  | none => .ok none
  | some j =>
    if j.daysOfWeek = "7F" ∧ j.startHour = 0 ∧ j.startMinute = 0
        ∧ j.endHour = 23 ∧ j.endMinute = 59 then
      .ok none
    else
      match DaysOfWeek.from_str j.daysOfWeek with
      | some d => .ok (some ⟨d, j.startHour, j.startMinute, j.endHour, j.endMinute⟩)
      | none => .error .valueError

/-- Embeds `RecurringSchedule.to_json`. -/
def RecurringSchedule.to_json (s : RecurringSchedule) : SchedJson :=
  ⟨s.days_of_week.to_str, s.start_hour, s.start_minute, s.end_hour, s.end_minute⟩

/-- Embeds the `TemporarySchedule` dataclass: an absolute activation and
expiration time (datetimes, modelled as epoch seconds). `stop` models the
source field `end`, which is a reserved word in Lean. -/
structure TemporarySchedule where
  start : Nat
  stop : Nat
  deriving DecidableEq

/-- A schedule with no enabled day and a non-sentinel time window. -/
def zeroMaskSchedule : RecurringSchedule :=
  { days_of_week := DaysOfWeek.noDays, start_hour := 1, start_minute := 2,
    end_hour := 3, end_minute := 4 }

/-- JSON values produced by the entity encoders (request bodies). Objects are
insertion-ordered key/value lists, like Python dicts. -/
inductive Json where
  | null
  | bool (b : Bool)
  | num (n : Int)
  | str (s : String)
  | arr (elems : List Json)
  | obj (fields : List (String × Json))

/-- Embeds Python dict update/assignment for one key: replace the value in
place when the key is present, else append the pair. -/
def Json.objSet (fields : List (String × Json)) (k : String) (v : Json) :
    List (String × Json) :=
  match fields with
  | [] => [(k, v)]
  | (k2, v2) :: rest =>
    if k2 = k then (k, v) :: rest else (k2, v2) :: Json.objSet rest k v

/-- An HTTP request issued through `Auth.request`, as observed by the entity
layer: method, path under the base URL, JSON body and query parameters. -/
structure Request where
  method : String
  path : String
  json : Option Json := none
  params : List (String × String) := []

/-- Embeds the f-string rendering of a possibly-`None` string. -/
def pyStrOpt : Option String → String
  | none => "None"
  | some s => s

/-- Python truthiness of an optional string: `None` and `""` are falsy. -/
def strTruthy : Option String → Bool
  | none => false
  | some s => !s.isEmpty

/-- A `None`-able string as a JSON value. -/
def optStr : Option String → Json
  | none => .null
  | some s => .str s

/-- Embeds Python's `int(s)` on the plain-digit fragment (the only shape the
source feeds it: zero-padded access codes). -/
def pyIntDec? (s : String) : Option Nat :=
  match s.data with
  | [] => none
  | ds =>
    ds.foldl
      (fun acc c =>
        acc.bind fun n =>
          if '0' ≤ c ∧ c ≤ '9' then some (10 * n + (c.toNat - '0'.toNat)) else none)
      (some 0)

/-- Embeds the f-string format `0{width}`: the decimal digits of `n`,
zero-padded on the left to at least `width` characters. -/
def padDec (n : Nat) (width : Nat) : String :=
  let ds := Nat.toDigits 10 n
  ⟨List.replicate (width - ds.length) '0' ++ ds⟩

/-- The `ON_UNLOCK_ACTION` notification type of `notification.py`. -/
def ON_UNLOCK_ACTION : String := "onunlockstateaction"

/-- The JSON object shape consumed by `Notification.from_json`: all listed
keys are required by the decoder except `filterValue`; the two timestamps are
ISO strings in the source, modelled as already-parsed epoch numbers (the
claims do not exercise date parsing). -/
structure NotifJson where
  notificationId : String
  userId : String
  deviceId : String
  notificationDefinitionId : String
  active : Bool
  filterValue : Option String := none
  createdAt : Nat
  updatedAt : Nat
  deriving DecidableEq

/-- Embeds the `Notification` dataclass of `notification.py`. `notification_id`
is an `Option` because `delete()` assigns `None` to it; its dataclass default
is `""`. `json = none` models an empty `_json` dict. -/
structure Notification where
  auth : Option Auth := none
  notification_id : Option String := some ""
  user_id : Option String := none
  device_id : Option String := none
  device_type : Option String := none
  notification_type : String := "__unknown__"
  active : Bool := false
  filter_value : Option String := none
  created_at : Option Nat := none
  updated_at : Option Nat := none
  json : Option NotifJson := none

/-- Embeds `Notification.request_path`. -/
def Notification.request_path (notification_id : Option String) : String :=
  match notification_id with
  | some nid => "notifications/" ++ nid
  | none => "notifications"

/-- Embeds `Notification.from_json`. The decoder does not set `device_type`
(callers stamp it afterwards). -/
def Notification.from_json (a : Auth) (j : NotifJson) : Notification :=
  { auth := some a, json := some j,
    notification_id := some j.notificationId,
    user_id := some j.userId,
    device_id := some j.deviceId,
    notification_type := j.notificationDefinitionId,
    active := j.active,
    filter_value := j.filterValue,
    created_at := some j.createdAt,
    updated_at := some j.updatedAt }

/-- Embeds `Notification.to_json`: the mutable properties, with `filterValue`
included only when set. -/
def Notification.to_json (n : Notification) : Json :=
  let base : List (String × Json) :=
    [("notificationId", optStr n.notification_id),
     ("userId", optStr n.user_id),
     ("deviceId", optStr n.device_id),
     ("devicetypeId", optStr n.device_type),
     ("notificationDefinitionId", .str n.notification_type),
     ("active", .bool n.active)]
  match n.filter_value with
  | some v => .obj (base ++ [("filterValue", .str v)])
  | none => .obj base

/-- Embeds `Mutable._update_with` for notifications: with a live session,
decode a fresh instance from the payload and copy every declared field onto
the live object, which therefore ends up equal to the fresh decode. -/
def Notification.update_with (n : Notification) (j : NotifJson) : Except Error Notification :=
  match n.auth with
  | none => .error .notAuthenticatedError
  | some a => .ok (Notification.from_json a j)

/-- Embeds `Notification.save`. The source computes the method (`"put"` when
`created_at` is set, else `"post"`) and the path from the notification id,
but then calls `self._auth.request(method, path, self.to_json())`: the third
POSITIONAL parameter of `Auth.request` is `base_url`, not a JSON body. The
request is therefore attempted with no body against the URL
`f"{to_json_dict}/{path}"`, whose rendering (`str` of a dict) has no URL
scheme, so `requests.request` raises `MissingSchema` before any response
exists; the exception is translated by neither decorator (see `Error`), and
the `self._update_with(resp.json())` merge line is never reached. With a live
session the save therefore always raises and never issues a request; the
`_resp` parameter stands for the response the source would have merged. -/
def Notification.save (n : Notification) (_resp : NotifJson) :
    Except Error (Request × Notification) :=
  match n.auth with
  | none => .error .notAuthenticatedError
  | some _ => .error .missingSchema

/-- Embeds `Notification.delete`: DELETE the resource, then detach the session
reference, clear the cached JSON and the id, and deactivate. -/
def Notification.delete (n : Notification) : Except Error (Request × Notification) :=
  match n.auth with
  | none => .error .notAuthenticatedError
  | some _ =>
    let req : Request :=
      { method := "delete", path := Notification.request_path n.notification_id }
    .ok (req, { n with auth := none, json := none, notification_id := none,
                       active := false })

/-- Modelled from the spec: the modern `Device` base class. The `device.py`
under src/ is an older revision lacking `device_type`, `request_path` and
`send_command`, which `lock.py`, `code.py` and the tests all rely on; spec §3
describes a device as carrying a stable device id and a device-type
discriminator next to its session reference. -/
structure Device where
  auth : Option Auth := none
  device_id : String := ""
  device_type : String := ""

/-- Modelled from the spec: the `/devices/{id}` endpoint path of spec §6. -/
def Device.request_path (device_id : String) : String :=
  "devices/" ++ device_id

/-- The command-queue request of spec §6: "POST /devices/{id}/commands —
enqueue an opaque command (`{name, data}`)". -/
def sendCommandRequest (d : Device) (command : String) (data : Json) : Request :=
  { method := "post", path := Device.request_path d.device_id ++ "/commands",
    json := some (.obj [("data", data), ("name", .str command)]) }

/-- Modelled from the spec: `Device.send_command`, issuing the command-queue
POST of spec §6; like every mutating call it fails fast with
`NotAuthenticatedError` on a detached device (spec §4.3 error policy). -/
def Device.send_command (d : Device) (command : String) (data : Json) :
    Except Error Request :=
  match d.auth with
  | none => .error .notAuthenticatedError
  | some _ => .ok (sendCommandRequest d command data)

/-- The JSON object shape consumed by `AccessCode.from_json`; keys read with
`.get(...)` are `Option` with the source's defaults applied at use sites. -/
structure CodeJson where
  accessCode : Nat
  accesscodeId : String
  accessCodeLength : Option Nat := none
  activationSecs : Nat
  expirationSecs : Nat
  disabled : Option Nat := none
  friendlyName : String
  notification : Nat
  schedule1 : Option SchedJson := none
  deriving DecidableEq

/-- The two mutually exclusive schedule variants of an access code. -/
inductive Schedule where
  | temporary (t : TemporarySchedule)
  | recurring (r : RecurringSchedule)

/-- Embeds the `AccessCode` dataclass of `code.py`. `json = none` models an
empty `_json` dict. -/
structure AccessCode where
  auth : Option Auth := none
  name : String := ""
  code : String := ""
  schedule : Option Schedule := none
  notify_on_use : Bool := false
  disabled : Bool := false
  device_id : Option String := none
  access_code_id : Option String := none
  device : Option Device := none
  notification : Option Notification := none
  json : Option CodeJson := none

/-- Embeds `AccessCode.from_json`: the schedule discriminator (sentinel
activation/expiration times `0` / `0xFFFFFFFF` select the recurring variant),
zero-padding of the numeric code to `accessCodeLength` (default 4), and the
truthiness decodings of `notification` and `disabled`. A `ValueError` from
the recurring-schedule decoder propagates. -/
def AccessCode.from_json (a : Auth) (device : Device) (j : CodeJson) :
    Except Error AccessCode := do
  let schedule ←
    if j.activationSecs = 0 ∧ j.expirationSecs = 4294967295 then
      (RecurringSchedule.from_json j.schedule1).map
        (fun | some r => some (Schedule.recurring r) | none => none)
    else
      -- TemporarySchedule.from_json; datetimes are epoch numbers here
      pure (some (Schedule.temporary ⟨j.activationSecs, j.expirationSecs⟩))
  let access_code_length := j.accessCodeLength.getD 4
  pure
    { auth := some a, json := some j, device := some device,
      access_code_id := some j.accesscodeId,
      name := j.friendlyName,
      code := padDec j.accessCode access_code_length,
      notify_on_use := j.notification != 0,
      disabled := (j.disabled.getD 0) != 0,
      schedule := schedule,
      device_id := some device.device_id }

/-- The JSON object of `RecurringSchedule.to_json`/`TemporarySchedule.to_json`
rendered as a request-body value. -/
def SchedJson.toJson (sj : SchedJson) : Json :=
  .obj [("daysOfWeek", .str sj.daysOfWeek), ("startHour", .num sj.startHour),
        ("startMinute", .num sj.startMinute), ("endHour", .num sj.endHour),
        ("endMinute", .num sj.endMinute)]

/-- Embeds `AccessCode.to_json`: the mutable properties, with `accesscodeId`
present only when truthy, `schedule1` defaulted to the all-days recurring
schedule and overridden by a recurring schedule, and the two absolute times
overridden in place (`dict.update`) by a temporary schedule. `int(self.code)`
can raise `ValueError` (a non-numeric code), hence the `Option`. -/
def AccessCode.to_json (c : AccessCode) : Option Json :=
  (pyIntDec? c.code).map fun codeNum =>
    let base : List (String × Json) :=
      [("friendlyName", .str c.name),
       ("accessCode", .num codeNum),
       ("accessCodeLength", .num c.code.data.length),
       ("notification", .num (if c.notify_on_use then 1 else 0)),
       ("notificationEnabled", .bool c.notify_on_use),
       ("disabled", .num (if c.disabled then 1 else 0)),
       ("activationSecs", .num 0),
       ("expirationSecs", .num 4294967295),
       ("schedule1", SchedJson.toJson (RecurringSchedule.to_json {}))]
    let base :=
      if strTruthy c.access_code_id then
        base ++ [("accesscodeId", .str (pyStrOpt c.access_code_id))]
      else base
    match c.schedule with
    | some (.recurring r) => .obj (Json.objSet base "schedule1" (SchedJson.toJson r.to_json))
    | some (.temporary t) =>
      .obj (Json.objSet (Json.objSet base "activationSecs" (.num t.start))
        "expirationSecs" (.num t.stop))
    | none => .obj base

/-- The notification-sync step of `AccessCode.save`: if no notification is
cached, construct one whose id is `"{user_id}_{access_code_id}"` with the
code's device/device-type context; in all cases overwrite its `filter_value`
with the code's name and its `active` flag with the code's `notify_on_use`. -/
def AccessCode.syncedNotification (c : AccessCode) (a : Auth) (d : Device) : Notification :=
  let n : Notification :=
    match c.notification with
    | none =>
      { auth := some a,
        notification_id := some (a.user_id ++ "_" ++ pyStrOpt c.access_code_id),
        user_id := some a.user_id,
        device_id := c.device_id,
        device_type := some d.device_type,
        notification_type := ON_UNLOCK_ACTION }
    | some n0 => n0
  { n with filter_value := some c.name, active := c.notify_on_use }

/-- Embeds `AccessCode.save`: choose `updateaccesscode` vs `addaccesscode` by
the truthiness of the current id, send the command with `to_json` as data,
adopt the `accesscodeId` of the response when present, refresh `device_id`
from the parent device, then sync and save the paired notification. The
command response is modelled as a string-valued object (the API returns at
most the `accesscodeId` field). Note the access-code command has already been
enqueued server-side when `Notification.save` raises its `MissingSchema` (the
`Except` error path drops the issued command request, as the Python exception
does). -/
def AccessCode.save (c : AccessCode) (cmdResp : List (String × String))
    (notifResp : NotifJson) : Except Error (List Request × AccessCode) := do
  let a ← match c.auth with
    | none => .error Error.notAuthenticatedError
    | some a => pure a
  let d ← match c.device with
    | none => .error Error.assertionError
    | some d => pure d
  let command := if strTruthy c.access_code_id then "updateaccesscode" else "addaccesscode"
  let body ← match c.to_json with
    | none => .error Error.valueError
    | some b => pure b
  let cmdReq ← d.send_command command body
  let c2 :=
    { c with
      access_code_id :=
        match cmdResp.lookup "accesscodeId" with
        | some s => some s
        | none => c.access_code_id,
      device_id := some d.device_id }
  let n := c2.syncedNotification a d
  let (nreq, n2) ← n.save notifResp
  pure ([cmdReq, nreq], { c2 with notification := some n2 })

/-- Embeds `AccessCode.delete`: send the `deleteaccesscode` command to the
parent lock, delete the paired notification when one is cached, then detach
the session, clear the cached JSON, the parent reference, the notification and
the id, and force `disabled = true`. -/
def AccessCode.delete (c : AccessCode) : Except Error (List Request × AccessCode) := do
  let _ ← match c.auth with
    | none => .error Error.notAuthenticatedError
    | some a => pure a
  let d ← match c.device with
    | none => .error Error.assertionError
    | some d => pure d
  let body ← match c.to_json with
    | none => .error Error.valueError
    | some b => pure b
  let cmdReq ← d.send_command "deleteaccesscode" body
  let notifReqs ← match c.notification with
    | some n => n.delete.map fun rn => [rn.1]
    | none => pure []
  pure (cmdReq :: notifReqs,
    { c with auth := none, json := none, device := none, notification := none,
             access_code_id := none, disabled := true })

/-- The JSON object shape consumed by `User.from_json`. -/
structure UserJson where
  friendlyName : String
  email : String
  identityId : String
  deriving DecidableEq

/-- Embeds the `User` dataclass of `user.py`. -/
structure User where
  name : String := ""
  email : String := ""
  user_id : Option String := none

/-- Embeds `User.from_json`. -/
def User.from_json (j : UserJson) : User :=
  { name := j.friendlyName, email := j.email, user_id := some j.identityId }

/-- The JSON object shape consumed by `LockStateMetadata.from_json` (all three
keys are required; `UUID` and `name` may be null). -/
structure MetaJson where
  actionType : String
  UUID : Option String := none
  name : Option String := none
  deriving DecidableEq

/-- Embeds the `LockStateMetadata` dataclass of `lock.py`. -/
structure LockStateMetadata where
  action_type : String
  uuid : Option String := none
  name : Option String := none

/-- Embeds `LockStateMetadata.from_json`. -/
def LockStateMetadata.from_json (j : MetaJson) : LockStateMetadata :=
  { action_type := j.actionType, uuid := j.UUID, name := j.name }

/-- The `attributes` object of a lock payload; keys read with `.get(...)` or
guarded by membership tests are `Option`. -/
structure LockAttrs where
  lockState : Option Nat := none
  lockStateMetadata : Option MetaJson := none
  batteryLevel : Option Nat := none
  beeperEnabled : Option Nat := none
  lockAndLeaveEnabled : Option Nat := none
  autoLockTime : Option Nat := none
  mainFirmwareVersion : Option String := none
  macAddress : Option String := none
  deriving DecidableEq

/-- The JSON object shape consumed by `Lock.from_json`; `deviceId`, `name` and
`devicetypeId` are required keys, the rest are read with `.get(...)`. -/
structure LockJson where
  attributes : LockAttrs
  users : List UserJson := []
  deviceId : String
  name : String
  modelName : Option String := none
  devicetypeId : String
  connected : Option Bool := none
  CAT : Option String := none
  deriving DecidableEq

/-- Embeds the `Lock` dataclass of `lock.py`; `device_id`/`device_type` are
the base-class fields of the spec-modelled `Device`. -/
structure Lock where
  auth : Option Auth := none
  device_id : String := ""
  device_type : String := ""
  name : String := ""
  model_name : String := ""
  connected : Bool := false
  battery_level : Option Nat := none
  is_locked : Option Bool := some false
  is_jammed : Option Bool := some false
  lock_state_metadata : Option LockStateMetadata := none
  beeper_enabled : Bool := false
  lock_and_leave_enabled : Bool := false
  auto_lock_time : Nat := 0
  firmware_version : Option String := none
  mac_address : Option String := none
  users : List (String × User) := []
  access_codes : Option (List (String × AccessCode)) := none
  cat : String := ""
  json : Option LockJson := none

/-- Embeds `Lock.from_json`. `is_locked`/`is_jammed` stay `None` unless the
`lockState` attribute is present; `.get(...)` defaults apply elsewhere; the
user list becomes a map keyed by user id. -/
def Lock.from_json (a : Auth) (j : LockJson) : Lock :=
  { auth := some a,
    device_id := j.deviceId,
    name := j.name,
    model_name := j.modelName.getD "",
    device_type := j.devicetypeId,
    connected := j.connected.getD false,
    battery_level := j.attributes.batteryLevel,
    is_locked := j.attributes.lockState.map (fun ls => ls == 1),
    is_jammed := j.attributes.lockState.map (fun ls => ls == 2),
    lock_state_metadata := j.attributes.lockStateMetadata.map LockStateMetadata.from_json,
    beeper_enabled := j.attributes.beeperEnabled == some 1,
    lock_and_leave_enabled := j.attributes.lockAndLeaveEnabled == some 1,
    auto_lock_time := j.attributes.autoLockTime.getD 0,
    firmware_version := j.attributes.mainFirmwareVersion,
    mac_address := j.attributes.macAddress,
    users := j.users.map (fun uj => (uj.identityId, User.from_json uj)),
    cat := j.CAT.getD "",
    json := some j }

/-- Embeds `Lock._is_wifi_lock`: whether `device_type` starts with one of the
WiFi prefixes. -/
def Lock.is_wifi_lock (l : Lock) : Bool :=
  ["be489", "be499", "fe789"].any (fun p => p.data.isPrefixOf l.device_type.data)

/-- The `Device` view of a lock (a `Lock` *is a* `Device` in the source). -/
def Lock.toDevice (l : Lock) : Device :=
  { auth := l.auth, device_id := l.device_id, device_type := l.device_type }

/-- The lock's inherited `send_command` (see `Device.send_command`). -/
def Lock.send_command (l : Lock) (command : String) (data : Json) :
    Except Error Request :=
  l.toDevice.send_command command data

/-- Embeds `Mutable._update_with` for locks: decode a fresh instance and copy
every declared field onto the live object. -/
def Lock.update_with (l : Lock) (j : LockJson) : Except Error Lock :=
  match l.auth with
  | none => .error .notAuthenticatedError
  | some a => .ok (Lock.from_json a j)

/-- Embeds `Lock._put_attributes`: PUT a partial attribute patch and merge the
full response back. -/
def Lock.put_attributes (l : Lock) (attributes : Json) (resp : LockJson) :
    Except Error (List Request × Lock) :=
  match l.auth with
  | none => .error .notAuthenticatedError
  | some _ =>
    let req : Request :=
      { method := "put", path := Device.request_path l.device_id,
        json := some (.obj [("attributes", attributes)]) }
    (l.update_with resp).map fun l2 => ([req], l2)

/-- Embeds `Lock._toggle`: WiFi locks PUT `{lockState: state}` and merge the
server response (`resp`); BLE locks POST the `changelockstate` command
envelope and optimistically set `is_locked`/`is_jammed` locally, ignoring
`resp`. -/
def Lock.toggle (l : Lock) (lock_state : Nat) (resp : LockJson) :
    Except Error (List Request × Lock) :=
  match l.auth with
  | none => .error .notAuthenticatedError
  | some a =>
    if l.is_wifi_lock then
      l.put_attributes (.obj [("lockState", .num lock_state)]) resp
    else do
      let data : Json :=
        .obj [("CAT", .str l.cat), ("deviceId", .str l.device_id),
              ("state", .num lock_state), ("userId", .str a.user_id)]
      let req ← l.send_command "changelockstate" data
      pure ([req], { l with is_locked := some (lock_state == 1),
                            is_jammed := some false })

/-- Embeds `Lock.lock`. -/
def Lock.lock (l : Lock) (resp : LockJson) : Except Error (List Request × Lock) :=
  l.toggle 1 resp

/-- Embeds `Lock.unlock`. -/
def Lock.unlock (l : Lock) (resp : LockJson) : Except Error (List Request × Lock) :=
  l.toggle 0 resp

/-- The notification-indexing loop of `Lock.get_access_codes`: keep only
on-unlock-action notifications whose id starts with the user id, keyed by the
id with the `"{user_id}_"` prefix (prefix plus underscore) stripped. -/
def Lock.notifIndex (user_id : String) (ns : List Notification) :
    List (String × Notification) :=
  ns.foldl
    (fun acc n =>
      if n.notification_type == ON_UNLOCK_ACTION then
        match n.notification_id with
        | some nid =>
          if user_id.data.isPrefixOf nid.data then
            acc ++ [(⟨nid.data.drop (user_id.data.length + 1)⟩, n)]
          else acc
        | none => acc
      else acc)
    []

/-- Embeds `Lock.get_access_codes` over the two server payloads it consumes
(the device-scoped notification list and the access-code list). Notifications
are decoded and stamped with the lock's device type (`_get_notifications`),
indexed by derived access-code id, and then each decoded access code whose id
has an index entry is given a notification. Faithfully to the source, the
attached value is the Python loop variable `notification` left over from the
indexing loop — the LAST decoded notification — not the index entry; the
source also passes `code_json` positionally into the `device` parameter of
`AccessCode.from_json` while repeating `device=self` as a keyword (a
`TypeError` at runtime); the evident intended call, with the lock as the
device, is embedded here. -/
def Lock.get_access_codes (l : Lock) (notifJsons : List NotifJson)
    (codeJsons : List CodeJson) : Except Error (List AccessCode) := do
  let a ← match l.auth with
    | none => .error Error.notAuthenticatedError
    | some a => pure a
  let decoded := notifJsons.map
    (fun nj => { Notification.from_json a nj with device_type := some l.device_type })
  let notifications := Lock.notifIndex a.user_id decoded
  let lastNotif := decoded.getLast?
  codeJsons.mapM fun cj => do
    let ac ← AccessCode.from_json a l.toDevice cj
    let ac := { ac with device_id := some l.device_id }
    if (ac.access_code_id.bind (fun acid => notifications.lookup acid)).isSome then
      pure { ac with notification := lastNotif }
    else
      pure ac

/-- Embeds the `LockLog` dataclass of `log.py` (timestamps as epoch
numbers). -/
structure LockLog where
  created_at : Nat
  accessor_id : Option String := none
  access_code_id : Option String := none
  message : String
  deriving DecidableEq

/-- The log message a disabled keypad produces (`LOG_EVENT_TYPES[11]`). -/
def keypadDisabledMessage : String := "Keypad disabled invalid code"

/-- Embeds `Lock.keypad_disabled` on a supplied log list (when called with
`None` the source first fetches the logs; the claims quantify over supplied
lists): an empty list gives `False`, otherwise the list is sorted by
`created_at` descending — Python's `sorted` is stable, as is `mergeSort` —
and the head's message is compared. The `[]` branch of the match is
unreachable since sorting preserves length. -/
def keypad_disabled (logs : List LockLog) : Bool :=
  if logs.isEmpty then false
  else
    match logs.mergeSort (fun x y => decide (y.created_at ≤ x.created_at)) with
    | [] => false
    | newest :: _ => newest.message == keypadDisabledMessage

/-- A `threading.Lock` value: an identity (allocation id) plus its lock
state. -/
structure Mutex where
  id : Nat
  locked : Bool
  deriving DecidableEq

/-- The shape of every `Mutable` dataclass of `common.py`: the private
per-instance mutex `_mu` (`init=False`, `default_factory=Mutex`), the session
reference `_auth`, and the remaining declared fields of the concrete subclass
(including its cached `_json` dict), bundled as `rest`. -/
structure MutableEnt (α : Type) where
  mu : Mutex
  auth : Option Auth
  rest : α

/-- Embeds `Mutable._update_with` generically. With a live session the
payload is decoded into a fresh instance `new_obj` — whose `default_factory`
mutex is a new, unlocked allocation (`freshMuId`) — and then, holding the
mutex `self._mu` evaluated at entry to the `with` block (returned first for
inspection), EVERY field reported by `dataclasses.fields(new_obj)` is copied
onto `self`: `dataclasses.fields` includes `init=False` fields, so `_mu` and
`_auth` are copied along with the subclass fields. -/
def updateWith {α σ : Type} (decode : Auth → σ → α) (freshMuId : Nat)
    (self : MutableEnt α) (json : σ) : Except Error (Nat × MutableEnt α) :=
  match self.auth with
  | none => .error .notAuthenticatedError
  | some a =>
    let newObj : MutableEnt α :=
      { mu := { id := freshMuId, locked := false }, auth := some a,
        rest := decode a json }
    .ok (self.mu.id, { mu := newObj.mu, auth := newObj.auth, rest := newObj.rest })

end Pyschlage

namespace Pyschlage

/-- Helper: for every nonzero day mask the hex round-trip through
`to_str`/`from_str` is the identity, and `to_str` yields the sentinel `"7F"`
exactly for the all-days mask. -/
theorem daysOfWeek_to_str_from_str (a b c d e f g : Bool)
    (h : (⟨a, b, c, d, e, f, g⟩ : DaysOfWeek) ≠ DaysOfWeek.noDays) :
    DaysOfWeek.from_str (DaysOfWeek.to_str ⟨a, b, c, d, e, f, g⟩)
        = some ⟨a, b, c, d, e, f, g⟩
      ∧ ((DaysOfWeek.to_str ⟨a, b, c, d, e, f, g⟩ = "7F")
          ↔ (⟨a, b, c, d, e, f, g⟩ : DaysOfWeek) = DaysOfWeek.allDays) := by
  revert h
  revert a b c d e f g
  decide

/-- claim C3: for every HTTP response with a non-2xx status, `Auth.request`
raises a typed error determined by the status — in particular a 401 response
should raise `NotAuthorizedError`. Evaluating the embedded
`_translate_http_errors` at a 401 response with body `{"message":
"Unauthorized"}` shows the code instead raises `UnknownError("Unauthorized")`:
the `except requests.HTTPError` handler never inspects the status code, and
`NotAuthorizedError` is only produced by `_translate_auth_errors` for
identity-provider `ClientError`s. This contradicts
`tests/test_auth.py::test_request_not_authorized`. -/
theorem translate_http_errors_401_is_unknownError :
    translate_http_errors response401 = .error (.unknownError "Unauthorized") := by
  rfl

/-- claim C4 (counterexample): the round-trip `to_str(from_str(x)) == x` fails
at the valid 7-bit hex string `x = "0"`: `from_str "0"` parses to the all-false
mask, but `to_str` then computes `hex(0).lstrip("0x").upper()`, and
`"0x0".lstrip("0x")` strips every leading character in the set `{'0','x'}` —
including the final digit — yielding `""`, not `"0"`. -/
theorem daysOfWeek_roundtrip_fails_at_zero :
    (DaysOfWeek.from_str "0").map DaysOfWeek.to_str = some "" ∧ ("" : String) ≠ "0" := by
  constructor
  · rfl
  · decide

/-- claim C4 (amended): for every valid 7-bit hex string `x` in `"1" .. "7F"`
(the canonical uppercase representations of `1 ≤ n ≤ 127`; `"0"` is excluded by
the counterexample), `to_str (from_str x) = x`. -/
theorem daysOfWeek_roundtrip_nonzero (i : Fin 128) (h : i.val ≠ 0) :
    (DaysOfWeek.from_str (canonHex i.val)).map DaysOfWeek.to_str
      = some (canonHex i.val) := by
  revert h
  revert i
  decide

/-- Witness for the amended C4 round-trip at `x = "7F"`. -/
theorem daysOfWeek_roundtrip_nonzero_witness :
    (127 : Fin 128).val ≠ 0 ∧
      (DaysOfWeek.from_str (canonHex (127 : Fin 128).val)).map DaysOfWeek.to_str
        = some (canonHex (127 : Fin 128).val) :=
  ⟨by decide, daysOfWeek_roundtrip_nonzero 127 (by decide)⟩

/-- claim C5 (counterexample): the schedule round-trip
`from_json (to_json s) = some s` fails for the structurally well-formed value
with no enabled day (a value the decoder itself produces from a `"0"` mask):
its encoding has `daysOfWeek = ""` — `hex(0).lstrip("0x")` strips the digit
too — and decoding that raises `ValueError` instead of yielding the value
back. -/
theorem recurringSchedule_roundtrip_fails_at_zero_mask :
    RecurringSchedule.from_json (some zeroMaskSchedule.to_json) = .error .valueError := by
  rfl

/-- claim C5 (amended): for every `RecurringSchedule` whose day mask enables
at least one day (zero masks fail per the counterexample) and which is not the
all-days 00:00–23:59 sentinel, decoding the JSON produced by encoding it
yields the value back; and the all-days full-day-window schedule decodes to
`none` (no schedule) rather than to a `RecurringSchedule` value. -/
theorem recurringSchedule_roundtrip (s : RecurringSchedule)
    (hmask : s.days_of_week ≠ DaysOfWeek.noDays)
    (hsent : ¬(s.days_of_week = DaysOfWeek.allDays ∧ s.start_hour = 0
      ∧ s.start_minute = 0 ∧ s.end_hour = 23 ∧ s.end_minute = 59)) :
    RecurringSchedule.from_json (some s.to_json) = .ok (some s)
      ∧ RecurringSchedule.from_json (some (RecurringSchedule.to_json {})) = .ok none := by
  refine ⟨?_, by rfl⟩
  obtain ⟨⟨a, b, c, d, e, f, g⟩, sh, sm, eh, em⟩ := s
  obtain ⟨hrt, hsen⟩ := daysOfWeek_to_str_from_str a b c d e f g hmask
  simp only [RecurringSchedule.from_json, RecurringSchedule.to_json, hrt]
  rw [if_neg]
  · intro hcond
    exact hsent ⟨hsen.mp hcond.1, hcond.2.1, hcond.2.2.1, hcond.2.2.2.1, hcond.2.2.2.2⟩

/-- Witness for the amended C5 round-trip at the weekdays-only 08:00–17:00
schedule. -/
theorem recurringSchedule_roundtrip_witness :
    ({ days_of_week := ⟨false, true, true, true, true, true, false⟩,
       start_hour := 8, start_minute := 0, end_hour := 17, end_minute := 0 }
        : RecurringSchedule).days_of_week ≠ DaysOfWeek.noDays
      ∧ (RecurringSchedule.from_json (some
          ({ days_of_week := ⟨false, true, true, true, true, true, false⟩,
             start_hour := 8, start_minute := 0, end_hour := 17, end_minute := 0 }
            : RecurringSchedule).to_json)
          = .ok (some { days_of_week := ⟨false, true, true, true, true, true, false⟩,
                        start_hour := 8, start_minute := 0, end_hour := 17,
                        end_minute := 0 })
        ∧ RecurringSchedule.from_json (some (RecurringSchedule.to_json {})) = .ok none) :=
  ⟨by decide,
    recurringSchedule_roundtrip _ (by decide) (by intro hc; exact absurd hc.2.1 (by decide))⟩

end Pyschlage

namespace Pyschlage

/-- claim C7: `AccessCode.delete` with a live session issues the
`deleteaccesscode` command to the parent lock, then the DELETE of the cached
paired notification, and leaves the object detached: session reference gone,
cached raw JSON cleared, id cleared, `disabled = true`; and every `save` call
on the detached object fails with `NotAuthenticatedError` for every server
response — i.e. before any request is built. -/
theorem accessCode_delete_detaches (c : AccessCode) (a a0 : Auth) (d : Device)
    (n0 : Notification) (body : Json)
    (hauth : c.auth = some a) (hdev : c.device = some d) (hda : d.auth = some a)
    (hbody : c.to_json = some body) (hnotif : c.notification = some n0)
    (hna : n0.auth = some a0) :
    AccessCode.delete c =
      .ok ([sendCommandRequest d "deleteaccesscode" body,
            { method := "delete", path := Notification.request_path n0.notification_id }],
           { c with auth := none, json := none, device := none, notification := none,
                    access_code_id := none, disabled := true })
      ∧ (∀ cr nr, AccessCode.save
          { c with auth := none, json := none, device := none, notification := none,
                   access_code_id := none, disabled := true } cr nr
          = .error Error.notAuthenticatedError) := by
  obtain ⟨cauth, cname, ccode, csched, cnotify, cdis, cdevid, cacid, cdev, cnotif, cjson⟩ := c
  obtain ⟨dauth, ddevid, ddevtype⟩ := d
  dsimp only at hauth hdev hda hbody hnotif ⊢
  subst hauth
  subst hdev
  subst hda
  subst hnotif
  constructor
  · simp only [AccessCode.delete, hbody, hna, Device.send_command, Notification.delete]
    rfl
  · intro cr nr
    rfl

/-- A concrete authenticated user. -/
def demoAuth : Auth := ⟨"u"⟩

/-- A concrete on-unlock-action notification payload for access code `acid`,
with id `"u_" ++ acid` following the side-car naming convention. -/
def notifJsonFor (acid : String) : NotifJson :=
  { notificationId := "u_" ++ acid, userId := "u", deviceId := "dev1",
    notificationDefinitionId := ON_UNLOCK_ACTION, active := true,
    filterValue := some ("code " ++ acid), createdAt := 100, updatedAt := 100 }

/-- A concrete access-code payload with id `acid` and no schedule. -/
def codeJsonFor (acid : String) : CodeJson :=
  { accessCode := 123, accesscodeId := acid, activationSecs := 0,
    expirationSecs := 4294967295, friendlyName := "code " ++ acid,
    notification := 1, schedule1 := none }

/-- A concrete WiFi lock attached to `demoAuth`. -/
def demoLock : Lock :=
  { auth := some demoAuth, device_id := "dev1", device_type := "be489wifi" }

/-- claim C1: `get_access_codes` should attach to each fetched access code
exactly the notification whose derived access-code id equals that code's id.
Evaluating the embedding on two codes `c1`, `c2` with their two side-car
notifications `u_c1`, `u_c2` shows the code instead attaches the LAST decoded
notification (`u_c2`) to BOTH codes: the loop builds the index
`notifications[access_code_id]` but the attachment branch assigns the stale
loop variable `notification` instead of `notifications[access_code.access_code_id]`. -/
theorem get_access_codes_attaches_stale_notification :
    (Lock.get_access_codes demoLock [notifJsonFor "c1", notifJsonFor "c2"]
        [codeJsonFor "c1", codeJsonFor "c2"]).map
        (fun cs => cs.map
          (fun c => (c.access_code_id, c.notification.bind Notification.notification_id)))
      = .ok [(some "c1", some "u_c2"), (some "c2", some "u_c2")] := by
  rfl

/-- A concrete BLE lock (`device_type` prefixed `be479`). -/
def bleLock : Lock :=
  { auth := some demoAuth, device_id := "bleDev", device_type := "be479",
    cat := "abcdef" }

/-- A minimal lock payload (used where a server response must be supplied but
is ignored by the path under test). -/
def demoLockJson : LockJson :=
  { attributes := {}, deviceId := "dev1", name := "Door Lock",
    devicetypeId := "be489wifi" }

/-- claim C2: on a lock whose `device_type` has no WiFi prefix, `lock()`
issues exactly one POST to the commands endpoint with body
`{"data": {"CAT": cat, "deviceId": id, "state": 1, "userId": uid},
"name": "changelockstate"}`, performs no follow-up GET and no merge of a
server response (the result state is the input state with only
`is_locked`/`is_jammed` overwritten, for every server response), and sets
`is_locked = True`, `is_jammed = False` locally. -/
theorem lock_ble_single_command_post (l : Lock) (a : Auth) (resp : LockJson)
    (hauth : l.auth = some a) (hble : l.is_wifi_lock = false) :
    l.lock resp =
      .ok ([{ method := "post", path := "devices/" ++ l.device_id ++ "/commands",
              json := some (.obj
                [("data", .obj [("CAT", .str l.cat), ("deviceId", .str l.device_id),
                                ("state", .num 1), ("userId", .str a.user_id)]),
                 ("name", .str "changelockstate")]) }],
            { l with is_locked := some true, is_jammed := some false }) := by
  simp [Lock.lock, Lock.toggle, hauth, hble, Lock.send_command, Device.send_command,
    Lock.toDevice, sendCommandRequest, Device.request_path]

/-- Witness for C2 at a concrete BLE lock. -/
theorem lock_ble_single_command_post_witness :
    bleLock.auth = some demoAuth ∧ bleLock.is_wifi_lock = false ∧
      bleLock.lock demoLockJson =
        .ok ([{ method := "post", path := "devices/" ++ bleLock.device_id ++ "/commands",
                json := some (.obj
                  [("data", .obj [("CAT", .str bleLock.cat),
                                  ("deviceId", .str bleLock.device_id),
                                  ("state", .num 1), ("userId", .str demoAuth.user_id)]),
                   ("name", .str "changelockstate")]) }],
              { bleLock with is_locked := some true, is_jammed := some false }) :=
  ⟨rfl, rfl, lock_ble_single_command_post bleLock demoAuth demoLockJson rfl rfl⟩

/-- A lock payload whose attributes lack `lockState` but still carry
`batteryLevel` and `mainFirmwareVersion`. -/
def lockStateAbsentJson : LockJson :=
  { attributes := { batteryLevel := some 95,
                    mainFirmwareVersion := some "10.00.00264232" },
    deviceId := "dev1", name := "Door Lock", devicetypeId := "be489wifi" }

/-- claim C9 (counterexample): the claim quantifies over EVERY payload whose
attributes lack `lockState` and demands `battery_level = None` and
`firmware_version = None`; but a payload lacking only `lockState` while
carrying `batteryLevel`/`mainFirmwareVersion` decodes those two fields to
their present values — only `is_locked`/`is_jammed` are forced to `None` by
the absence of `lockState`. -/
theorem lock_from_json_lockState_absent_keeps_battery :
    (Lock.from_json demoAuth lockStateAbsentJson).is_locked = none
      ∧ (Lock.from_json demoAuth lockStateAbsentJson).is_jammed = none
      ∧ (Lock.from_json demoAuth lockStateAbsentJson).battery_level = some 95
      ∧ (Lock.from_json demoAuth lockStateAbsentJson).firmware_version
          = some "10.00.00264232" :=
  ⟨rfl, rfl, rfl, rfl⟩

/-- claim C9 (amended): for every lock payload whose attributes lack
`lockState`, decoding yields `is_locked = is_jammed = None`; when the
attributes also lack `batteryLevel` and `mainFirmwareVersion` (the
"unavailable" payload shape), `battery_level` and `firmware_version` decode to
`None` as well — not to the falsy defaults `False`/`0`/`""`. -/
theorem lock_from_json_unavailable (a : Auth) (j : LockJson)
    (h1 : j.attributes.lockState = none)
    (h2 : j.attributes.batteryLevel = none)
    (h3 : j.attributes.mainFirmwareVersion = none) :
    (Lock.from_json a j).is_locked = none
      ∧ (Lock.from_json a j).is_jammed = none
      ∧ (Lock.from_json a j).battery_level = none
      ∧ (Lock.from_json a j).firmware_version = none := by
  simp [Lock.from_json, h1, h2, h3]

/-- Witness for the amended C9 at an unavailable-device payload. -/
theorem lock_from_json_unavailable_witness :
    demoLockJson.attributes.lockState = none
      ∧ demoLockJson.attributes.batteryLevel = none
      ∧ demoLockJson.attributes.mainFirmwareVersion = none
      ∧ ((Lock.from_json demoAuth demoLockJson).is_locked = none
          ∧ (Lock.from_json demoAuth demoLockJson).is_jammed = none
          ∧ (Lock.from_json demoAuth demoLockJson).battery_level = none
          ∧ (Lock.from_json demoAuth demoLockJson).firmware_version = none) :=
  ⟨rfl, rfl, rfl, lock_from_json_unavailable demoAuth demoLockJson rfl rfl rfl⟩

/-- claim C10: `Mutable._update_with` decodes a fresh instance and copies
every declared dataclass field of it onto `self` — `dataclasses.fields`
includes the `init=False` mutex field `_mu` as well as `_auth` and the
subclass fields (`rest`, which bundles `_json`) — so after a merge the
instance holds the fresh instance's newly allocated, unlocked mutex
(`freshMuId`), not the mutex that was held while the fields were copied
(`self.mu.id`, the first component of the result). -/
theorem update_with_copies_every_field {α σ : Type} (decode : Auth → σ → α)
    (freshMuId : Nat) (self : MutableEnt α) (json : σ) (a : Auth)
    (hauth : self.auth = some a) (hfresh : freshMuId ≠ self.mu.id) :
    updateWith decode freshMuId self json =
      .ok (self.mu.id,
        { mu := { id := freshMuId, locked := false }, auth := some a,
          rest := decode a json })
      ∧ freshMuId ≠ self.mu.id := by
  refine ⟨?_, hfresh⟩
  simp [updateWith, hauth]

/-- Witness for C10 with a held (locked) mutex of id 0 and a fresh allocation
of id 1. -/
theorem update_with_copies_every_field_witness :
    (MutableEnt.mk ⟨0, true⟩ (some demoAuth) 7).auth = some demoAuth
      ∧ (1 : Nat) ≠ (MutableEnt.mk ⟨0, true⟩ (some demoAuth) (7 : Nat)).mu.id
      ∧ (updateWith (fun _ n => n + 1) 1 (MutableEnt.mk ⟨0, true⟩ (some demoAuth) 7) 9 =
          .ok ((MutableEnt.mk ⟨0, true⟩ (some demoAuth) (7 : Nat)).mu.id,
            { mu := { id := 1, locked := false }, auth := some demoAuth,
              rest := (fun (_ : Auth) (n : Nat) => n + 1) demoAuth 9 })
          ∧ (1 : Nat) ≠ (MutableEnt.mk ⟨0, true⟩ (some demoAuth) (7 : Nat)).mu.id) :=
  ⟨rfl, by decide,
    update_with_copies_every_field (fun _ n => n + 1) 1
      (MutableEnt.mk ⟨0, true⟩ (some demoAuth) 7) 9 demoAuth rfl (by decide)⟩

/-- A concrete parent device. -/
def demoDevice : Device :=
  { auth := some demoAuth, device_id := "dev1", device_type := "be489wifi" }

/-- A concrete server-fetched notification (its `created_at` is set). -/
def demoNotification : Notification :=
  Notification.from_json demoAuth (notifJsonFor "c1")

/-- A concrete saved access code with a cached paired notification. -/
def demoCode : AccessCode :=
  { auth := some demoAuth, name := "code c1", code := "0123", notify_on_use := true,
    device_id := some "dev1", access_code_id := some "c1",
    device := some demoDevice, notification := some demoNotification }

/-- The command body `demoCode.to_json` evaluates to. -/
def demoBody : Json := demoCode.to_json.getD .null

/-- A concrete never-saved access code (no id, no cached notification). -/
def demoCodeFresh : AccessCode :=
  { auth := some demoAuth, name := "code c1", code := "0123", notify_on_use := true,
    device := some demoDevice }

/-- claim C6: with a live session, `save()` should leave a paired
notification saved — POST when never fetched from the server, PUT when
previously fetched — with the code's name and `notify_on_use` as its filter
value and active flag. Evaluating the embedding at live access codes (a
fresh one and one with a previously fetched notification), with a server that
returns the new `accesscodeId` and would echo the notification, shows `save()`
instead raises the untranslated `MissingSchema` transport error in both
cases: `Notification.save` passes `self.to_json()` into the `base_url`
parameter of `Auth.request`, so the notification-save request has no body and
a scheme-less URL, the paired notification is never saved, and `save()` never
returns — contradicting the claim, spec §4.3 step 3 and the save tests of
`tests/test_code.py`, which expect the body under a `json=` keyword. -/
theorem accessCode_save_raises_missingSchema :
    AccessCode.save demoCodeFresh [("accesscodeId", "c1")] (notifJsonFor "c1")
        = .error Error.missingSchema
      ∧ AccessCode.save demoCode [("accesscodeId", "c1")] (notifJsonFor "c1")
        = .error Error.missingSchema :=
  ⟨rfl, rfl⟩

/-- Witness for C7: deleting `demoCode` (which has a cached notification)
succeeds, and the detached object rejects a save. -/
theorem accessCode_delete_detaches_witness :
    demoCode.auth = some demoAuth
      ∧ demoCode.device = some demoDevice
      ∧ demoDevice.auth = some demoAuth
      ∧ demoCode.to_json = some demoBody
      ∧ demoCode.notification = some demoNotification
      ∧ demoNotification.auth = some demoAuth
      ∧ (AccessCode.delete demoCode).toOption.isSome = true
      ∧ AccessCode.save
          { demoCode with auth := none, json := none, device := none,
                          notification := none, access_code_id := none, disabled := true }
          [] (notifJsonFor "c1")
          = .error Error.notAuthenticatedError :=
  ⟨rfl, rfl, rfl, rfl, rfl, rfl, by
      rw [(accessCode_delete_detaches demoCode demoAuth demoAuth demoDevice demoNotification
        demoBody rfl rfl rfl rfl rfl rfl).1]
      rfl,
    (accessCode_delete_detaches demoCode demoAuth demoAuth demoDevice demoNotification
        demoBody rfl rfl rfl rfl rfl rfl).2 [] (notifJsonFor "c1")⟩

/-- The descending-timestamp comparator used by `keypad_disabled`. -/
theorem keypad_disabled_le_trans (a b c : LockLog)
    (hab : decide (b.created_at ≤ a.created_at) = true)
    (hbc : decide (c.created_at ≤ b.created_at) = true) :
    decide (c.created_at ≤ a.created_at) = true := by
  simp only [decide_eq_true_eq] at *
  omega

/-- Totality of the descending-timestamp comparator. -/
theorem keypad_disabled_le_total (a b : LockLog) :
    (decide (b.created_at ≤ a.created_at) || decide (a.created_at ≤ b.created_at)) = true := by
  simp only [Bool.or_eq_true, decide_eq_true_eq]
  omega

/-- Helper characterization: on a nonempty log list with pairwise-distinct
timestamps, `keypad_disabled` is `true` iff some entry with the
keypad-disabled message has the maximal timestamp. -/
theorem keypad_disabled_iff (logs : List LockLog) (hne : logs ≠ [])
    (hdist : logs.Pairwise (fun x y => x.created_at ≠ y.created_at)) :
    keypad_disabled logs = true ↔
      ∃ l, l ∈ logs ∧ l.message = keypadDisabledMessage
        ∧ ∀ l2 ∈ logs, l2.created_at ≤ l.created_at := by
  have hperm := List.mergeSort_perm logs (fun x y => decide (y.created_at ≤ x.created_at))
  have hpair := @List.sorted_mergeSort LockLog
    (fun x y => decide (y.created_at ≤ x.created_at))
    keypad_disabled_le_trans keypad_disabled_le_total logs
  cases hs : logs.mergeSort (fun x y => decide (y.created_at ≤ x.created_at)) with
  | nil =>
    rw [hs] at hperm
    exact absurd hperm.symm.eq_nil hne
  | cons hd tl =>
    rw [hs] at hperm hpair
    have hhd : hd ∈ logs := hperm.mem_iff.mp (List.mem_cons_self hd tl)
    have hmax : ∀ y ∈ logs, y.created_at ≤ hd.created_at := by
      intro y hy
      rcases List.mem_cons.mp (hperm.mem_iff.mpr hy) with h1 | h2
      · exact h1 ▸ Nat.le_refl _
      · have := (List.pairwise_cons.mp hpair).1 y h2
        simpa using this
    have hemp : logs.isEmpty = false := by
      cases logs with
      | nil => exact absurd rfl hne
      | cons _ _ => rfl
    have hkd : keypad_disabled logs = (hd.message == keypadDisabledMessage) := by
      simp [keypad_disabled, hemp, hs]
    rw [hkd]
    constructor
    · intro ht
      exact ⟨hd, hhd, by simpa using ht, hmax⟩
    · rintro ⟨l, hl, hmsg, hlmax⟩
      have heq : l.created_at = hd.created_at :=
        Nat.le_antisymm (hmax l hl) (hlmax hd hhd)
      have hlh : l = hd := by
        by_contra hne2
        exact (List.Pairwise.forall (fun {x y} hxy => hxy.symm) hdist hl hhd hne2) heq
      rw [← hlh, hmsg]
      simp

/-- Two log entries with the SAME timestamp, only the first carrying the
keypad-disabled message. -/
def tieLogA : LockLog := { created_at := 5, message := keypadDisabledMessage }

/-- See `tieLogA`. -/
def tieLogB : LockLog := { created_at := 5, message := "Unlocked by keypad" }

/-- claim C8 (counterexample): the claim asserts the result is the same for
every permutation of the input list; with two entries sharing the newest
timestamp the stable descending sort keeps the input order of the tied
entries, so the two orderings of the same two entries give different
results. -/
theorem keypad_disabled_not_permutation_invariant :
    keypad_disabled [tieLogA, tieLogB] = true
      ∧ keypad_disabled [tieLogB, tieLogA] = false
      ∧ List.Perm [tieLogA, tieLogB] [tieLogB, tieLogA] := by
  refine ⟨?_, ?_, List.Perm.swap tieLogB tieLogA []⟩
  · simp [keypad_disabled, List.mergeSort, tieLogA, tieLogB, keypadDisabledMessage]
  · simp [keypad_disabled, List.mergeSort, tieLogA, tieLogB, keypadDisabledMessage]

/-- claim C8 (amended): `keypad_disabled` returns `False` on the empty list;
on a list with pairwise-distinct timestamps it returns `True` iff the entry
with the chronologically newest `created_at` carries the
keypad-disabled-invalid-code message, and — under that distinctness, which
makes "the newest entry" well defined — the result is the same for every
permutation of the input list. With tied newest timestamps the stable sort
makes the result order-dependent (see the counterexample). -/
theorem keypad_disabled_spec (logs : List LockLog)
    (hdist : logs.Pairwise (fun x y => x.created_at ≠ y.created_at)) :
    (logs = [] → keypad_disabled logs = false)
      ∧ (logs ≠ [] → (keypad_disabled logs = true ↔
          ∃ l, l ∈ logs ∧ l.message = keypadDisabledMessage
            ∧ ∀ l2 ∈ logs, l2.created_at ≤ l.created_at))
      ∧ (∀ logs2, logs.Perm logs2 → keypad_disabled logs = keypad_disabled logs2) := by
  refine ⟨?_, ?_, ?_⟩
  · intro h
    subst h
    rfl
  · intro hne
    exact keypad_disabled_iff logs hne hdist
  · intro logs2 hp
    by_cases hne : logs = []
    · subst hne
      rw [hp.symm.eq_nil]
    · have hne2 : logs2 ≠ [] := by
        intro h
        subst h
        exact hne hp.eq_nil
      have hdist2 := (hp.pairwise_iff (fun {x y} hxy => hxy.symm)).mp hdist
      rw [Bool.eq_iff_iff, keypad_disabled_iff logs hne hdist,
        keypad_disabled_iff logs2 hne2 hdist2]
      constructor
      · rintro ⟨l, hl, hm, hx⟩
        exact ⟨l, hp.mem_iff.mp hl, hm, fun l2 h2 => hx l2 (hp.mem_iff.mpr h2)⟩
      · rintro ⟨l, hl, hm, hx⟩
        exact ⟨l, hp.mem_iff.mpr hl, hm, fun l2 h2 => hx l2 (hp.mem_iff.mp h2)⟩

/-- A log pair with distinct timestamps; the newest entry carries the
keypad-disabled message. -/
def logT1 : LockLog := { created_at := 10, message := keypadDisabledMessage }

/-- See `logT1`. -/
def logT2 : LockLog := { created_at := 3, message := "Lock jammed" }

/-- Witness for the amended C8 on a concrete distinct-timestamp log list. -/
theorem keypad_disabled_spec_witness :
    List.Pairwise (fun x y : LockLog => x.created_at ≠ y.created_at) [logT1, logT2]
      ∧ (([logT1, logT2] : List LockLog) = [] → keypad_disabled [logT1, logT2] = false)
      ∧ (([logT1, logT2] : List LockLog) ≠ [] → (keypad_disabled [logT1, logT2] = true ↔
          ∃ l, l ∈ [logT1, logT2] ∧ l.message = keypadDisabledMessage
            ∧ ∀ l2 ∈ [logT1, logT2], l2.created_at ≤ l.created_at))
      ∧ (∀ logs2, List.Perm [logT1, logT2] logs2 →
          keypad_disabled [logT1, logT2] = keypad_disabled logs2) :=
  ⟨by simp [logT1, logT2], keypad_disabled_spec [logT1, logT2] (by simp [logT1, logT2])⟩

end Pyschlage
